import Mathlib

/-!
# Verification of the desired-state reconciliation behavior of the Azure
# Redis Cache / Cosmos DB Ansible modules

Shallow embedding of
`lib/ansible/modules/cloud/azure/azure_rm_rediscache.py`,
`lib/ansible/modules/cloud/azure/azure_rm_rediscache_facts.py` and
`lib/ansible/modules/cloud/azure/azure_rm_cosmosdbdatabaseaccount_facts.py`.

Python dictionaries holding the module parameters are embedded as
association lists `List (String × Value)` in insertion order; optional
module arguments are `Option`-valued; the remote SDK calls are embedded
as explicit `Except CloudError _` inputs so that error propagation can
be stated; the unbounded delete-confirmation `while` loop is embedded
with an explicit fuel parameter.
-/

namespace AnsibleAzure

/-- Requested lifecycle state: the `state` module argument, whose
`choices` are exactly `['present', 'absent']`
(azure_rm_rediscache.py lines 168-172). -/
inductive LifecycleState where
  | present
  | absent
deriving DecidableEq, Repr

/-- `class Actions: NoAction, Create, Update, Delete = range(4)`
(azure_rm_rediscache.py lines 132-133). -/
inductive Actions where
  | NoAction
  | Create
  | Update
  | Delete
deriving DecidableEq, Repr

/-- The reconciliation decision of `AzureRMRedis.exec_module`
(azure_rm_rediscache.py lines 235-249): `old_response` is truthy iff
`get_rediscache` found the resource.  The function consumes only the
lifecycle state and the existence bit — no field content — so there is
no field-level diffing.  The final `else` of the inner `elif` chain
(leaving `to_do = NoAction`) is unreachable because `state` is
constrained to the two choices. -/
def decideAction (state : LifecycleState) (oldResponse : Bool) : Actions :=
  if oldResponse = false then
    if state = LifecycleState.absent then
      Actions.NoAction
    else
      Actions.Create
  else
    if state = LifecycleState.absent then
      Actions.Delete
    else if state = LifecycleState.present then
      Actions.Update
    else
      Actions.NoAction

/-- The user-supplied `sku` dict: optional `name` and `size` keys
(azure_rm_rediscache.py lines 198-201). -/
structure SkuSpec where
  name : Option String
  size : Option Int
deriving DecidableEq, Repr

/-- The `ev` dict built for the `sku` parameter: `capacity`, `name`,
`family` (azure_rm_rediscache.py lines 196-206). -/
structure SkuPayload where
  capacity : Option Int
  name : Option String
  family : Option String
deriving DecidableEq, Repr

/-- `name[0].upper() + name[1:]` (azure_rm_rediscache.py line 202).
Python raises `IndexError` on the empty string; every claim involves
only nonempty tier names, and we map the empty string to itself. -/
def canonicalize (s : String) : String :=
  match s.data with
  | [] => ""
  | c :: cs => String.mk (Char.toUpper c :: cs)

/-- The `sku` branch of the parameter dispatch
(azure_rm_rediscache.py lines 195-206): `capacity` from `size` when
present, canonicalized `name` when present, and `family` = `'P'` iff
the canonical name is `'Premium'`, else `'C'`, computed only when a
name was given. -/
def buildSku (sku : SkuSpec) : SkuPayload :=
  let capacity := sku.size
  let name := sku.name.map canonicalize
  let family := name.map (fun n => if n = "Premium" then "P" else "C")
  { capacity := capacity, name := name, family := family }

/-- A value of a module argument or of a payload entry.  Python is
duck-typed; the constructors cover the shapes the module actually
handles: strings, ints, bools, str-to-str dicts (`redis_configuration`,
`tags`), lists of strings (a split `zones` value), the user `sku` dict
and the built `sku` payload dict. -/
inductive Value where
  | vstr (s : String)
  | vint (n : Int)
  | vbool (b : Bool)
  | vdict (m : List (String × String))
  | vlist (l : List String)
  | vskuSpec (s : SkuSpec)
  | vskuPayload (p : SkuPayload)
deriving DecidableEq, Repr

/-- The keyword arguments passed to `exec_module`: one entry per
argument-spec key, `none` when the caller did not supply the argument
(Ansible passes `None`). -/
abbrev Kwargs := String → Option Value

/-- `self.parameters`, a Python dict embedded as an association list in
insertion order. -/
abbrev Params := List (String × Value)

/-- The keys of `self.module_arg_spec`, in declaration order
(azure_rm_rediscache.py lines 140-173).  Note that `zones`, although
documented as a module option (lines 67-69), is NOT among them. -/
def argSpecKeys : List String :=
  ["resource_group", "name", "sku", "location", "shard_count",
   "redis_configuration", "enable_non_ssl_port", "tags", "state"]

/-- The argument-spec keys for which `hasattr(self, key)` holds, so the
loop does `setattr` instead of building a parameter: the instance
attributes assigned in `AzureRMRedis.__init__`
(azure_rm_rediscache.py lines 175-182) intersected with the
argument-spec keys. -/
def attrKeys : List String := ["resource_group", "name", "state"]

/-- One pass of the `elif` chain of the parameter-building loop
(azure_rm_rediscache.py lines 194-222), applied to a key whose kwarg
value is not `None`; returns the (key, value) entries added to
`self.parameters`.  The chain compares against the literal strings of
the source, including the misspelled `"enabled_non_ssl_port"`
(line 213) and the keys `"subnet_ip"`, `"static_ip"`, `"zones"`
(lines 215-220) that do not occur in the argument spec.  A `sku` or
`zones` value of an unexpected shape would make the Python subscript
or `.split` raise; no claim exercises that, and we return no entry. -/
def dispatchParam (key : String) (v : Value) : List (String × Value) :=
  if key = "sku" then
    match v with
    | Value.vskuSpec s => [("sku", Value.vskuPayload (buildSku s))]
    | _ => []
  else if key = "location" then [("location", v)]
  else if key = "redis_configuration" then [("redis_configuration", v)]
  else if key = "shard_count" then [("shard_count", v)]
  else if key = "enabled_non_ssl_port" then [("enable_non_ssl_port", v)]
  else if key = "subnet_ip" then [("subnet_ip", v)]
  else if key = "static_ip" then [("static_ip", v)]
  else if key = "zones" then
    match v with
    | Value.vstr s => [("zones", Value.vlist (s.splitOn ","))]
    | _ => []
  else if key = "tags" then [("tags", v)]
  else []

/-- One iteration of the parameter-building loop
(azure_rm_rediscache.py lines 191-222): a key that is an instance
attribute is `setattr`-ed and adds no parameter; otherwise, when the
kwarg is not `None`, the `elif` chain runs and its entries are added. -/
def paramStep (kwargs : Kwargs) (acc : Params) (key : String) : Params :=
  if key ∈ attrKeys then acc
  else
    match kwargs key with
    | none => acc
    | some v => acc ++ dispatchParam key v

/-- The parameter-building loop of `exec_module`
(azure_rm_rediscache.py lines 191-222): iterate over the argument-spec
keys in order, starting from the empty `self.parameters` dict. -/
def buildParameters (kwargs : Kwargs) : Params :=
  argSpecKeys.foldl (paramStep kwargs) []

/-- `self.parameters` as submitted to the remote create/update call:
after the loop, `exec_module` defaults a missing `location` to the
resource group's location (azure_rm_rediscache.py lines 232-233). -/
def fullParameters (kwargs : Kwargs) (rgLocation : String) : Params :=
  let p := buildParameters kwargs
  if (p.lookup "location").isNone then p ++ [("location", Value.vstr rgLocation)]
  else p

/-- A `msrestazure` `CloudError` raised by a remote SDK call, carrying
the HTTP status of the remote failure (404 = not found, 403 =
forbidden, ...). -/
structure CloudError where
  statusCode : Nat
deriving DecidableEq, Repr

/-- The deserialized remote response dictionary (`response.as_dict()`). -/
abbrev RedisResponse := List (String × Value)

/-- The outcome of a module-level operation: either a result, or the
module aborts via `self.fail(msg)`; the failure message interpolates
`str(exc)`, so the original remote error is carried along. -/
inductive ModuleOutcome (α : Type) where
  | ok (result : α)
  | failed (msg : String) (original : CloudError)
deriving DecidableEq, Repr

/-- `AzureRMRedis.get_rediscache` (azure_rm_rediscache.py lines
331-350): the remote `get` either returns a response or raises a
`CloudError`.  `except CloudError:` — with no status filter — only
logs, leaving `found = False`, and the function returns `False`
(embedded as `none`).  So EVERY `CloudError`, whatever its status, is
reported as absence. -/
def get_rediscache (remote : Except CloudError RedisResponse) : Option RedisResponse :=
  match remote with
  | Except.ok r => some r
  | Except.error _ => none

/-- `AzureRMRedis.create_update_rediscache` (azure_rm_rediscache.py
lines 290-313): on success the deserialized response is returned; on
`CloudError exc` the module fails with a message interpolating
`str(exc)`. -/
def create_update_rediscache (remote : Except CloudError RedisResponse) :
    ModuleOutcome RedisResponse :=
  match remote with
  | Except.ok r => ModuleOutcome.ok r
  | Except.error e =>
      ModuleOutcome.failed "Error creating the Redis Cache instance" e

/-- `AzureRMRedis.delete_rediscache` (azure_rm_rediscache.py lines
315-329): one call to `self.mgmt_client.redis.delete`; on success
returns `True`; on `CloudError e` the module fails with a message
interpolating `str(e)`. -/
def delete_rediscache (remote : Except CloudError Unit) : ModuleOutcome Bool :=
  match remote with
  | Except.ok _ => ModuleOutcome.ok true
  | Except.error e =>
      ModuleOutcome.failed "Error deleting the Redis Cache instance" e

/-- The delete-confirmation loop
`while self.get_rediscache(): time.sleep(20)`
(azure_rm_rediscache.py lines 276-277), embedded with fuel.
`present i` is the existence answer of the i-th check after the delete
call.  `pollAbsent present fuel i` returns `some n` when the loop,
started at check index `i`, exits after observing absence at check
index `n` (having slept `n - i` times), and `none` when `fuel` checks
were exhausted with the resource still reported present.  The source
loop has NO fuel: it only ever exits through the `some` case. -/
def pollAbsent (present : Nat → Bool) : Nat → Nat → Option Nat
  | 0, _ => none
  | fuel + 1, i => if present i then pollAbsent present fuel (i + 1) else some i

/-- One execution trace of the `Delete` branch of `exec_module`
(azure_rm_rediscache.py lines 265-277): one call to
`delete_rediscache` (hence exactly one remote delete call), then the
confirmation loop. -/
structure DeleteRun where
  deleteCalls : Nat
  confirmed : Option Nat
deriving DecidableEq, Repr

/-- The `Delete` branch: issue the single delete call, then poll. -/
def executeDelete (present : Nat → Bool) (fuel : Nat) : DeleteRun :=
  { deleteCalls := 1, confirmed := pollAbsent present fuel 0 }

/-- A deserialized Cosmos DB database-account item. -/
structure CosmosAccount where
  id : String
deriving DecidableEq, Repr

/-- A Python runtime error raised by executing module code itself (as
opposed to a remote error): here, the `AttributeError` raised by
evaluating `results.push` on a `list` (Python resolves the attribute
before evaluating the call's arguments). -/
inductive PyRuntimeError where
  | attributeError (obj : String) (attr : String)
deriving DecidableEq, Repr

/-- `AzureRMDatabaseAccountsFacts.get`
(azure_rm_cosmosdbdatabaseaccount_facts.py lines 142-160): the remote
`get` either yields a response or raises `CloudError`, which is caught
and only logged, leaving `response = None`.  If `response is not None`
the code runs `results.push(this.format_item(response))`, which raises
`AttributeError: 'list' object has no attribute 'push'` (evaluated
before the undefined name `this` is ever reached); otherwise the empty
`results` list is returned. -/
def cosmosFactsGet (remote : Except CloudError CosmosAccount) :
    Except PyRuntimeError (List CosmosAccount) :=
  match remote with
  | Except.error _ => Except.ok []
  | Except.ok _ => Except.error (PyRuntimeError.attributeError "list" "push")

/-- `AzureRMDatabaseAccountsFacts.list_by_resource_group`
(azure_rm_cosmosdbdatabaseaccount_facts.py lines 162-180): the remote
list either yields items or raises `CloudError` (caught, logged,
`response = None`).  For each item the loop runs
`results.push(format_item(item))`, raising the same `AttributeError`
on the first item; an empty listing returns the empty list. -/
def cosmosFactsList (remote : Except CloudError (List CosmosAccount)) :
    Except PyRuntimeError (List CosmosAccount) :=
  match remote with
  | Except.error _ => Except.ok []
  | Except.ok [] => Except.ok []
  | Except.ok (_ :: _) => Except.error (PyRuntimeError.attributeError "list" "push")

/-! ## Concrete inputs used by the scenario claims -/

/-- A full caller input with an unrecognized tier name `"foo"`. -/
def kwargsInvalidTier : Kwargs := fun k =>
  if k = "resource_group" then some (Value.vstr "TestGroup")
  else if k = "name" then some (Value.vstr "testcache")
  else if k = "sku" then some (Value.vskuSpec { name := some "foo", size := some 1 })
  else if k = "enable_non_ssl_port" then some (Value.vbool false)
  else if k = "state" then some (Value.vstr "present")
  else none

/-- A caller input carrying a comma-separated `zones` string. -/
def kwargsWithZones : Kwargs := fun k =>
  if k = "resource_group" then some (Value.vstr "TestGroup")
  else if k = "name" then some (Value.vstr "testcache")
  else if k = "zones" then some (Value.vstr "a,b,c")
  else if k = "enable_non_ssl_port" then some (Value.vbool false)
  else if k = "state" then some (Value.vstr "present")
  else none

/-- A caller input that supplies no `location` (and no optional
payload fields at all). -/
def kwargsNoLocation : Kwargs := fun k =>
  if k = "resource_group" then some (Value.vstr "TestGroup")
  else if k = "name" then some (Value.vstr "testcache")
  else if k = "enable_non_ssl_port" then some (Value.vbool false)
  else if k = "state" then some (Value.vstr "present")
  else none

/-- The §8 scenario input: sku `{tier:"premium", size:4}`. -/
def kwargsPremium : Kwargs := fun k =>
  if k = "resource_group" then some (Value.vstr "TestGroup")
  else if k = "name" then some (Value.vstr "testcache")
  else if k = "sku" then some (Value.vskuSpec { name := some "premium", size := some 4 })
  else if k = "enable_non_ssl_port" then some (Value.vbool false)
  else if k = "state" then some (Value.vstr "present")
  else none

/-! ## Helper lemmas about the parameter-building loop -/

/-- Entries produced by one loop iteration either were already in the
accumulator or come from the `elif` chain on a non-`None` kwarg. -/
theorem mem_paramStep {kwargs : Kwargs} {acc : Params} {key : String}
    {kv : String × Value} (h : kv ∈ paramStep kwargs acc key) :
    kv ∈ acc ∨ ∃ v, kwargs key = some v ∧ kv ∈ dispatchParam key v := by
  by_cases hattr : key ∈ attrKeys
  · simp only [paramStep, if_pos hattr] at h
    exact Or.inl h
  · cases hk : kwargs key with
    | none =>
        simp only [paramStep, if_neg hattr, hk] at h
        exact Or.inl h
    | some v =>
        simp only [paramStep, if_neg hattr, hk, List.mem_append] at h
        rcases h with h | h
        · exact Or.inl h
        · exact Or.inr ⟨v, rfl, h⟩

/-- Entries of the folded loop come from the accumulator or from some
iterated key's `elif` chain. -/
theorem mem_foldl_paramStep (kwargs : Kwargs) (l : List String) :
    ∀ (acc : Params) (kv : String × Value),
      kv ∈ l.foldl (paramStep kwargs) acc →
      kv ∈ acc ∨ ∃ k, k ∈ l ∧ ∃ v, kwargs k = some v ∧ kv ∈ dispatchParam k v := by
  induction l with
  | nil => intro acc kv h; exact Or.inl h
  | cons a t ih =>
      intro acc kv h
      rw [List.foldl_cons] at h
      rcases ih (paramStep kwargs acc a) kv h with h' | ⟨k, hk, v, hv, hkv⟩
      · rcases mem_paramStep h' with h'' | ⟨v, hv, hkv⟩
        · exact Or.inl h''
        · exact Or.inr ⟨a, List.mem_cons_self a t, v, hv, hkv⟩
      · exact Or.inr ⟨k, List.mem_cons_of_mem a hk, v, hv, hkv⟩

/-- Every entry of `self.parameters` after the loop comes from the
`elif` chain applied to an argument-spec key whose kwarg was not
`None`. -/
theorem mem_buildParameters {kwargs : Kwargs} {kv : String × Value}
    (h : kv ∈ buildParameters kwargs) :
    ∃ k, k ∈ argSpecKeys ∧ ∃ v, kwargs k = some v ∧ kv ∈ dispatchParam k v := by
  rcases mem_foldl_paramStep kwargs argSpecKeys [] kv h with h' | h'
  · exact absurd h' (List.not_mem_nil kv)
  · exact h'

/-- For a key of the argument spec, the `elif` chain only ever adds an
entry under that same key (the branches writing under a different key
fire only for keys outside the argument spec). -/
theorem dispatchParam_key_eq {key : String} (hkey : key ∈ argSpecKeys)
    {v : Value} {kv : String × Value} (h : kv ∈ dispatchParam key v) :
    kv.1 = key := by
  simp only [argSpecKeys, List.mem_cons, List.not_mem_nil, or_false] at hkey
  rcases hkey with rfl | rfl | rfl | rfl | rfl | rfl | rfl | rfl | rfl <;>
    cases v <;> simp_all [dispatchParam]

/-- The `elif` chain adds nothing for the key `enable_non_ssl_port`:
the chain compares against the misspelled `"enabled_non_ssl_port"`
(azure_rm_rediscache.py line 213) and falls through. -/
theorem dispatchParam_enable_non_ssl_port (v : Value) :
    dispatchParam "enable_non_ssl_port" v = [] := by
  cases v <;> simp [dispatchParam]

/-- A lookup over an association list none of whose keys is `a`
returns `none`. -/
theorem lookup_eq_none_of_keys :
    ∀ {l : Params} {a : String}, (∀ kv ∈ l, kv.1 ≠ a) → l.lookup a = none := by
  intro l a h
  induction l with
  | nil => rfl
  | cons kv t ih =>
      obtain ⟨k, b⟩ := kv
      have hne : k ≠ a := h (k, b) (List.mem_cons_self _ t)
      have hbeq : (a == k) = false := beq_eq_false_iff_ne.mpr (Ne.symm hne)
      simp only [List.lookup, hbeq]
      exact ih fun p hp => h p (List.mem_cons_of_mem _ hp)

/-- Lookups in the submitted parameters, for a key other than
`location`, see only entries produced by the `elif` chain. -/
theorem fullParameters_lookup_eq_none {kwargs : Kwargs} {rgLocation : String}
    {key : String} (hloc : key ≠ "location")
    (h : ∀ k, k ∈ argSpecKeys → ∀ v (kv : String × Value),
      kwargs k = some v → kv ∈ dispatchParam k v → kv.1 ≠ key) :
    (fullParameters kwargs rgLocation).lookup key = none := by
  have hbuild : ∀ kv ∈ buildParameters kwargs, kv.1 ≠ key := by
    intro kv hkv
    rcases mem_buildParameters hkv with ⟨k, hk, v, hv, hkv'⟩
    exact h k hk v kv hv hkv'
  simp only [fullParameters]
  split
  · apply lookup_eq_none_of_keys
    intro kv hkv
    rcases List.mem_append.mp hkv with hm | hm
    · exact hbuild kv hm
    · have hkv1 : kv = ("location", Value.vstr rgLocation) := by simpa using hm
      rw [hkv1]
      exact Ne.symm hloc
  · exact lookup_eq_none_of_keys hbuild

/-- The confirmation loop against a remote that always reports the
resource present never exits, whatever the fuel. -/
theorem pollAbsent_const_true (fuel : Nat) :
    ∀ i, pollAbsent (fun _ => true) fuel i = none := by
  induction fuel with
  | zero => intro i; rfl
  | succ n ih => intro i; simpa [pollAbsent] using ih (i + 1)

/-! ## Claims -/

/-- C1: for every pair of requested lifecycle state and observed
existence, the reconciliation decision is exactly the truth table:
absent/absent → NoAction, absent/present → Delete, present/absent →
Create, present/present → Update.  All four combinations are listed,
and `decideAction` is a total function of only these two inputs, so
exactly one Action results per invocation and no field-level diffing
can occur. -/
theorem C1_decide_truth_table :
    decideAction LifecycleState.absent false = Actions.NoAction ∧
    decideAction LifecycleState.absent true = Actions.Delete ∧
    decideAction LifecycleState.present false = Actions.Create ∧
    decideAction LifecycleState.present true = Actions.Update := by
  decide

/-- C2 (code evaluated at the failing input): the tier name `"foo"`,
outside the documented closed set {basic, standard, premium}, is NOT
rejected: the module has no validation step, canonicalizes it to
`"Foo"` with family `"C"`, and places it in the payload submitted to
the remote call.  No `ValidationError` exists on this path — the
payload builder is a total function with no error outcome. -/
theorem C2_invalid_tier_reaches_payload :
    (fullParameters kwargsInvalidTier "eastus").lookup "sku" =
      some (Value.vskuPayload
        { capacity := some 1, name := some "Foo", family := some "C" }) := by
  decide

/-- C3 counterexample: a caller-supplied `zones` value `"a,b,c"` is
never split into the payload — the built parameters contain no `zones`
key at all, because `zones` is not a key of `module_arg_spec` and the
loop iterates only over argument-spec keys. -/
theorem C3_counterexample_zones_dropped :
    kwargsWithZones "zones" = some (Value.vstr "a,b,c") ∧
    (fullParameters kwargsWithZones "eastus").lookup "zones" = none := by
  decide

/-- C3 (amended): for every input, the submitted payload omits the
`zones` key entirely; the `elif` branch that would split a
comma-separated `zones` string (azure_rm_rediscache.py lines 219-220)
is unreachable because `zones` is absent from the argument spec. -/
theorem C3_zones_never_in_payload (kwargs : Kwargs) (rgLocation : String) :
    (fullParameters kwargs rgLocation).lookup "zones" = none := by
  apply fullParameters_lookup_eq_none (by decide)
  intro k hk v kv hv hkv
  have h1 := dispatchParam_key_eq hk hkv
  intro h2
  rw [h2] at h1
  rw [← h1] at hk
  exact absurd hk (by decide)

/-- C4 (code evaluated at the failing input): executing Delete issues
exactly one remote delete call and polls existence with a fixed
20-unit delay; against a client reporting still-present for 3 polls
then absent it completes after 3 intervals; but against a client that
never reports absence the loop `while self.get_rediscache():
time.sleep(20)` never exits — no fuel bound makes it return, and no
`ConfirmationTimeout` (or any timeout) exists in the code. -/
theorem C4_delete_confirmation_unbounded :
    (∀ (present : Nat → Bool) (fuel : Nat),
        (executeDelete present fuel).deleteCalls = 1) ∧
    (executeDelete (fun i => decide (i < 3)) 10).confirmed = some 3 ∧
    (∀ fuel : Nat, (executeDelete (fun _ => true) fuel).confirmed = none) := by
  refine ⟨fun _ _ => rfl, by decide, fun fuel => ?_⟩
  simpa [executeDelete] using pollAbsent_const_true fuel 0

/-- C5 counterexample: a remote error with status 403 (forbidden, not
404/not-found) is also treated as legitimate absence by the existence
check — `get_rediscache` catches every `CloudError`, with no status
filter, and returns the absence marker. -/
theorem C5_counterexample_forbidden_treated_as_absent :
    get_rediscache (Except.error { statusCode := 403 }) = none ∧
    (403 : Nat) ≠ 404 := by
  exact ⟨rfl, by decide⟩

/-- C5 (amended): create/update and delete remote errors propagate to
the module boundary as failures carrying the original error, but the
existence check treats EVERY remote error — any `CloudError`
regardless of status, not only not-found — as absence. -/
theorem C5_error_propagation (e : CloudError) :
    create_update_rediscache (Except.error e) =
      ModuleOutcome.failed "Error creating the Redis Cache instance" e ∧
    delete_rediscache (Except.error e) =
      ModuleOutcome.failed "Error deleting the Redis Cache instance" e ∧
    get_rediscache (Except.error e) = none :=
  ⟨rfl, rfl, rfl⟩

/-- C6 counterexample: with no `location` in the caller's declared
configuration, the submitted payload still contains `location` — it is
defaulted from the resource group (azure_rm_rediscache.py lines
232-233), so the field `location` violates "payload lacks every
missing field". -/
theorem C6_counterexample_location_defaulted :
    kwargsNoLocation "location" = none ∧
    (fullParameters kwargsNoLocation "eastus").lookup "location" =
      some (Value.vstr "eastus") := by
  decide

/-- C6 (amended): for every field other than `location` that the
caller did not supply, the submitted payload lacks that field (partial
update semantics; nothing is submitted as null or zero-valued); a
missing `location` alone is defaulted from the resource group's
location rather than omitted. -/
theorem C6_partial_update_except_location (kwargs : Kwargs)
    (rgLocation : String) (key : String) (hloc : key ≠ "location")
    (hnone : kwargs key = none) :
    (fullParameters kwargs rgLocation).lookup key = none := by
  apply fullParameters_lookup_eq_none hloc
  intro k hk v kv hv hkv
  have h1 := dispatchParam_key_eq hk hkv
  intro h2
  rw [h2] at h1
  rw [← h1] at hv
  rw [hnone] at hv
  exact Option.noConfusion hv

/-- Witness for C6 at a concrete input: the caller supplied no
`shard_count`, and the submitted payload lacks it. -/
theorem C6_partial_update_witness :
    (("shard_count" : String) ≠ "location" ∧
      kwargsNoLocation "shard_count" = none) ∧
    (fullParameters kwargsNoLocation "eastus").lookup "shard_count" = none :=
  ⟨⟨by decide, by decide⟩,
    C6_partial_update_except_location kwargsNoLocation "eastus" "shard_count"
      (by decide) (by decide)⟩

/-- C7: for DesiredSpec `{tier:"premium", size:4}` with the resource
observed absent and lifecycle `present`, the decision is Create and
the submitted payload's `sku` equals
`{name:"Premium", capacity:4, family:"P"}`: `"premium"` is
canonicalized by capitalizing its first letter and the family code is
derived from the canonical name (`"P"` iff `"Premium"`). -/
theorem C7_premium_scenario :
    decideAction LifecycleState.present false = Actions.Create ∧
    (fullParameters kwargsPremium "eastus").lookup "sku" =
      some (Value.vskuPayload
        { capacity := some 4, name := some "Premium", family := some "P" }) := by
  decide

/-- C8: canonicalization of the tier name — capitalizing the first
letter — is idempotent on every valid tier name. -/
theorem C8_canonicalize_idempotent (x : String)
    (h : x ∈ ["basic", "standard", "premium"]) :
    canonicalize (canonicalize x) = canonicalize x := by
  simp only [List.mem_cons, List.not_mem_nil, or_false] at h
  rcases h with rfl | rfl | rfl <;> decide

/-- Witness for C8 at the concrete tier name `"premium"`. -/
theorem C8_canonicalize_idempotent_witness :
    "premium" ∈ ["basic", "standard", "premium"] ∧
    canonicalize (canonicalize "premium") = canonicalize "premium" :=
  ⟨by decide, C8_canonicalize_idempotent "premium" (by decide)⟩

/-- C9: whenever the Cosmos DB facts module's remote `get` or
`list_by_resource_group` yields at least one resource, accumulating
results raises (the `results.push` attribute lookup on a Python list
fails); consequently a normal, non-error return of either function
implies the returned account list is empty. -/
theorem C9_cosmos_facts_accumulation_raises :
    (∀ r : CosmosAccount,
        cosmosFactsGet (Except.ok r) =
          Except.error (PyRuntimeError.attributeError "list" "push")) ∧
    (∀ rs : List CosmosAccount, rs ≠ [] →
        cosmosFactsList (Except.ok rs) =
          Except.error (PyRuntimeError.attributeError "list" "push")) ∧
    (∀ (remote : Except CloudError CosmosAccount) (l : List CosmosAccount),
        cosmosFactsGet remote = Except.ok l → l = []) ∧
    (∀ (remote : Except CloudError (List CosmosAccount)) (l : List CosmosAccount),
        cosmosFactsList remote = Except.ok l → l = []) := by
  refine ⟨fun r => rfl, fun rs hrs => ?_, fun remote l h => ?_, fun remote l h => ?_⟩
  · cases rs with
    | nil => exact absurd rfl hrs
    | cons a t => rfl
  · cases remote with
    | error e => simpa [cosmosFactsGet] using h.symm
    | ok r => exact absurd h (by simp [cosmosFactsGet])
  · cases remote with
    | error e => simpa [cosmosFactsList] using h.symm
    | ok rs =>
        cases rs with
        | nil => simpa [cosmosFactsList] using h.symm
        | cons a t => exact absurd h (by simp [cosmosFactsList])

/-- Witness for C9 at concrete inputs: one listed account raises the
push error, and an error-free get (remote 404) returns the empty
list. -/
theorem C9_cosmos_facts_witness :
    cosmosFactsGet (Except.ok { id := "ddb1" }) =
      Except.error (PyRuntimeError.attributeError "list" "push") ∧
    cosmosFactsList (Except.ok [{ id := "ddb1" }]) =
      Except.error (PyRuntimeError.attributeError "list" "push") ∧
    ([] : List CosmosAccount) = [] :=
  ⟨C9_cosmos_facts_accumulation_raises.1 { id := "ddb1" },
    C9_cosmos_facts_accumulation_raises.2.1 [{ id := "ddb1" }] (by decide),
    C9_cosmos_facts_accumulation_raises.2.2.1
      (Except.error { statusCode := 404 }) [] rfl⟩

/-- C10: for every input, the submitted payload never contains the key
`enable_non_ssl_port`: the `elif` chain compares against the
misspelled `"enabled_non_ssl_port"`, which is not an argument-spec
key, so the caller's value (including its default `False`) is dropped
and never sent to the remote create/update call. -/
theorem C10_enable_non_ssl_port_dropped (kwargs : Kwargs)
    (rgLocation : String) :
    (fullParameters kwargs rgLocation).lookup "enable_non_ssl_port" = none := by
  apply fullParameters_lookup_eq_none (by decide)
  intro k hk v kv hv hkv
  have h1 := dispatchParam_key_eq hk hkv
  intro h2
  rw [h2] at h1
  rw [← h1] at hkv
  rw [dispatchParam_enable_non_ssl_port v] at hkv
  exact absurd hkv (List.not_mem_nil kv)

end AnsibleAzure
